import Mathlib

/-!
Verification development for the `notebooklm-wrapper` repository.

Shallow embedding of the session/invocation layer (`_mcp_client.py`), the
research retry and poll loops (`resources/research.py`) and the task model
(`models.py`), together with theorems settling claims about them.

Modelling conventions:
* Python strings are Lean `String`; `pat in s` is list-infix containment on
  the character data; `str.lower()` is per-character `Char.toLower` (these
  agree on ASCII, which covers every keyword the code matches on).
* `time.monotonic()` readings are an environment-supplied sequence of
  rational time stamps; `int()` applied to a float is truncation toward
  zero on `ℚ`; the `:.0f` float format is round-half-to-even.
* Awaited calls and sleeps are recorded in explicit traces (counts and
  argument lists), so claims about "exactly n calls / n suspends" are
  statements about trace values.
-/

namespace NotebookLM

/-- Boolean infix test on character lists (Python substring containment),
written structurally so it evaluates by kernel reduction. -/
def listIsInfixOf (pat : List Char) : List Char → Bool
  | [] => pat.isEmpty
  | l@(_ :: rest) => pat.isPrefixOf l || listIsInfixOf pat rest

/-- Python `s.lower()`: per-character lowercasing (ASCII-faithful). -/
def pyLower (s : String) : String := ⟨s.data.map Char.toLower⟩

/-- Python `pat in s` substring containment. -/
def strContains (s pat : String) : Bool := listIsInfixOf pat.data s.data

/-- Python `repr` of a string without quote characters: wrap in `'`. -/
def pyRepr (s : String) : String := "\x27" ++ s ++ "\x27"

/-- Floor of a rational, written via floor division of the numerator. -/
def ratFloorZ (q : ℚ) : ℤ := q.num.fdiv q.den

/-- Ceiling of a rational. -/
def ratCeilZ (q : ℚ) : ℤ := -((-q).num.fdiv (-q).den)

/-- Python `int()` on a float value: truncation toward zero. -/
def truncQ (q : ℚ) : ℤ := if 0 ≤ q then ratFloorZ q else ratCeilZ q

/-- Python `:.0f` formatting: round half to even, then print the integer. -/
def roundHalfEvenQ (q : ℚ) : ℤ :=
  let f := ratFloorZ q
  if q - f < 1 / 2 then f
  else if 1 / 2 < q - f then f + 1
  else if f % 2 = 0 then f else f + 1

/-- Python `f"{q:.0f}"` (negative-zero display not modelled). -/
def fmt0f (q : ℚ) : String := toString (roundHalfEvenQ q)

/-! ## Error taxonomy and `MCPClientManager._map_error`
(`src/notebooklm_wrapper/_mcp_client.py`, lines 149–168). -/

/-- One constructor per concrete `NotebookLMError` subclass the library
raises (`Generic` is the bare `NotebookLMError`; `Timeout` is
`NotebookLMTimeoutError`, raised only by the research poll loop). -/
inductive ErrorKind
  | Authentication
  | NotFound
  | RateLimit
  | Validation
  | Generation
  | Timeout
  | Generic
deriving DecidableEq, Repr

/-- The kind `_map_error` chooses: case-insensitive substring tests on the
raw message, in source order, first match wins. -/
def map_error_kind (message : String) : ErrorKind :=
  let m := pyLower message
  if strContains m "auth" || strContains m "login" || strContains m "credential" then
    .Authentication
  else if strContains m "not found" || strContains m "404" then .NotFound
  else if strContains m "rate limit" || strContains m "429" then .RateLimit
  else if strContains m "invalid" || strContains m "validation" then .Validation
  else if strContains m "generat" || strContains m "artifact" then .Generation
  else .Generic

/-- The message carried by the error `_map_error` returns:
`f"[{tool_name}] {message}" if message else f"[{tool_name}] Unknown error"`. -/
def map_error_message (message tool_name : String) : String :=
  if message ≠ "" then "[" ++ tool_name ++ "]" ++ " " ++ message
  else "[" ++ tool_name ++ "]" ++ " Unknown error"

/-- `_map_error` as a whole: classified kind and carried message. -/
def map_error (message tool_name : String) : ErrorKind × String :=
  (map_error_kind message, map_error_message message tool_name)

/-- The spec's ordered keyword table ("order matters: first match wins"). -/
def keywordTable : List (List String × ErrorKind) :=
  [ (["auth", "login", "credential"], .Authentication)
  , (["not found", "404"], .NotFound)
  , (["rate limit", "429"], .RateLimit)
  , (["invalid", "validation"], .Validation)
  , (["generat", "artifact"], .Generation) ]

/-- Classification as the spec words it: the first row of the ordered table
one of whose keywords occurs case-insensitively in the message; `Generic`
when no row matches. -/
def classify_spec (message : String) : ErrorKind :=
  let m := pyLower message
  match keywordTable.find? (fun row => row.1.any (fun kw => strContains m kw)) with
  | some row => row.2
  | none => .Generic

/-! ## Task model (`src/notebooklm_wrapper/models.py`, `ResearchTask`),
restricted to the fields the claims touch, with response mappings modelled
as association lists of string keys to string values. -/

/-- The `Literal` set of the `status` field of `ResearchTask`. -/
def allowedStatuses : List String :=
  ["pending", "running", "in_progress", "completed", "failed", "no_research", "success"]

/-- `_TERMINAL_STATUSES` from `resources/research.py`. -/
def _TERMINAL_STATUSES : List String :=
  ["completed", "success", "failed", "no_research"]

/-- `ResearchTask`, restricted to the `status` (default `"pending"`) and
`report` (default `None`) fields. -/
structure ResearchTask where
  status : String := "pending"
  report : Option String := none
deriving DecidableEq, Repr

/-- Whether pydantic's lax mode coerces a string into the `int` field
`sources_found`: an optionally signed run of decimal digits. -/
def isIntString (s : String) : Bool :=
  match s.data with
  | [] => false
  | c :: ds =>
    if c = '-' then !ds.isEmpty && ds.all Char.isDigit
    else (c :: ds).all Char.isDigit

/-- Whether the `sources_found` entry of a mapping, if present, passes the
`int` field check. -/
def sourcesFoundOk (m : List (String × String)) : Bool :=
  match m.lookup "sources_found" with
  | some v => isIntString v
  | none => true

/-- `ResearchTask.model_validate` on a decoded mapping, with the typed
fields checked as pydantic does over this string-valued value space: a
missing `status` key defaults to `"pending"` and a present value outside
the `Literal` set fails; a `sources` entry always fails (a string is never
a `list[dict]`); a `sources_found` entry must be an integer-shaped string
(lax `int` coercion); the `str | None` fields accept any string; extra
keys are ignored. -/
def ResearchTask.model_validate (m : List (String × String)) :
    Except String ResearchTask :=
  let s := (m.lookup "status").getD "pending"
  if s ∉ allowedStatuses then .error "validation error: status"
  else if (m.lookup "sources").isSome then .error "validation error: sources"
  else if sourcesFoundOk m then .ok { status := s, report := m.lookup "report" }
  else .error "validation error: sources_found"

/-! ## `_parse_tool_result` (`_mcp_client.py`, lines 33–51). -/

/-- A raw MCP content block: a `TextContent` with its text, or any other
block type. -/
inductive ContentBlock
  | text (s : String)
  | nonText
deriving DecidableEq, Repr

/-- The scan over content blocks: the first `TextContent` with non-empty
text is JSON-parsed (`jsonParse` models `json.loads` restricted to
string-valued objects, `none` being a `JSONDecodeError`, which yields
`{"raw": text}`); no such block yields the empty mapping. -/
def _parse_tool_result_go (jsonParse : String → Option (List (String × String))) :
    List ContentBlock → List (String × String)
  | [] => []
  | .text s :: rest =>
    if s ≠ "" then
      match jsonParse s with
      | some d => d
      | none => [("raw", s)]
    else _parse_tool_result_go jsonParse rest
  | .nonText :: rest => _parse_tool_result_go jsonParse rest

/-- `_parse_tool_result`: pre-parsed structured content takes precedence;
otherwise scan the content blocks. -/
def _parse_tool_result (jsonParse : String → Option (List (String × String)))
    (content : List ContentBlock)
    (structured_content : Option (List (String × String))) :
    List (String × String) :=
  match structured_content with
  | some sc => sc
  | none => _parse_tool_result_go jsonParse content

/-- The argument filtering in `MCPClientManager.call_tool`
(`filtered_args = {k: v for k, v in arguments.items() if v is not None}`):
argument mappings are association lists whose values are `Option V`
(`none` is Python `None`). -/
def filtered_args {V : Type} (arguments : List (String × Option V)) :
    List (String × V) :=
  arguments.filterMap (fun kv => kv.2.map (fun v => (kv.1, v)))

/-! ## `ResearchResource.start` retry loop
(`resources/research.py`, lines 46–66). -/

/-- The outcome of one `self._call("research_start", ...)` attempt together
with its decoding: a validated task, or a raised `NotebookLMError` carrying
the given message. -/
inductive Outcome
  | ok (t : ResearchTask)
  | err (msg : String)
deriving DecidableEq, Repr

/-- What a run of `start` returns or raises. -/
inductive StartResult
  | ok (t : ResearchTask)
  | raised (msg : String)
deriving DecidableEq, Repr

/-- Observable trace of a run of `start`: its result, the number of remote
calls made, and the list of slept delays in order. -/
structure StartTrace where
  result : StartResult
  calls : Nat
  sleeps : List ℚ
deriving DecidableEq, Repr

/-- The body of the `for attempt in range(1 + retries)` loop of `start`:
`remaining` counts the attempts still allowed after the current one
(so `remaining > 0` iff `attempt < retries`).  A success returns; an error
whose lowercased message does not contain `"no confirmation from api"` is
re-raised at once; a transient error sleeps the current delay and retries
with the delay doubled while attempts remain, else the loop ends and the
last transient error is re-raised. -/
def startGo (outcomes : Nat → Outcome) (attempt : Nat) (delay : ℚ) :
    Nat → StartTrace
  | 0 =>
    match outcomes attempt with
    | .ok t => ⟨.ok t, 1, []⟩
    | .err m =>
      if strContains (pyLower m) "no confirmation from api" then
        ⟨.raised m, 1, []⟩
      else ⟨.raised m, 1, []⟩
  | r + 1 =>
    match outcomes attempt with
    | .ok t => ⟨.ok t, 1, []⟩
    | .err m =>
      if strContains (pyLower m) "no confirmation from api" then
        let rest := startGo outcomes (attempt + 1) (2 * delay) r
        ⟨rest.result, 1 + rest.calls, delay :: rest.sleeps⟩
      else ⟨.raised m, 1, []⟩

/-- `ResearchResource.start` with retry parameters, as a trace. -/
def research_start (outcomes : Nat → Outcome) (retries : Nat)
    (retry_delay : ℚ) : StartTrace :=
  startGo outcomes 0 retry_delay retries

/-! ## `ResearchResource.status` poll loop
(`resources/research.py`, lines 68–110). -/

/-- The Timeout message built at `research.py` lines 106–109:
`f"Research did not complete within {max_wait}s (status={task.status!r}, elapsed={elapsed:.0f}s)"`. -/
def researchTimeoutMessage (max_wait : ℤ) (status : String) (elapsed : ℚ) :
    String :=
  "Research did not complete within " ++ toString max_wait ++
    "s (status=" ++ pyRepr status ++ ", elapsed=" ++ fmt0f elapsed ++ "s)"

/-- The wait budget passed as the tool's `max_wait` argument:
`min(poll_interval, max(1, int(max_wait - (time.monotonic() - t0))))`. -/
def pollBudget (poll_interval max_wait : ℤ) (t0 preT : ℚ) : ℤ :=
  min poll_interval (max 1 (truncQ ((max_wait : ℚ) - (preT - t0))))

/-- What one iteration of the poll loop decides. -/
inductive StepOutcome
  | done (t : ResearchTask)
  | timeout (msg : String)
  | invalid (msg : String)
  | again
deriving DecidableEq, Repr

/-- One iteration of the `while True` loop of `status`: compute the budget
from the pre-call clock reading, issue the call (its decoded response is
`resp`), validate; a terminal status returns the task at once; otherwise
the deadline is checked against the post-call clock reading, failing with
Timeout when elapsed ≥ `max_wait` and suspending (`again`) when not.
Returns the decision and the budget the call was issued with. -/
def pollStep (poll_interval max_wait : ℤ) (t0 preT postT : ℚ)
    (resp : List (String × String)) : StepOutcome × ℤ :=
  let budget := pollBudget poll_interval max_wait t0 preT
  match ResearchTask.model_validate resp with
  | .error e => (.invalid e, budget)
  | .ok task =>
    if task.status ∈ _TERMINAL_STATUSES then (.done task, budget)
    else
      let elapsed := postT - t0
      if (max_wait : ℚ) ≤ elapsed then
        (.timeout (researchTimeoutMessage max_wait task.status elapsed), budget)
      else (.again, budget)

/-- Environment of a poll run: the decoded response of the i-th remote call
and the successive `time.monotonic()` readings (reading 0 is `t0`; iteration
i uses reading `2*i+1` before the call and `2*i+2` for the deadline check). -/
structure PollEnv where
  responses : Nat → List (String × String)
  clock : Nat → ℚ

/-- What a poll run returns or raises (`outOfFuel`: the modelling bound on
the number of iterations was exhausted before the loop decided). -/
inductive LoopOutcome
  | ok (t : ResearchTask)
  | timeout (msg : String)
  | invalid (msg : String)
  | outOfFuel
deriving DecidableEq, Repr

/-- Observable trace of a poll run: its outcome, the number of remote calls,
the wait budgets those calls were issued with, in order, and the number of
`asyncio.sleep(poll_interval)` suspensions. -/
structure PollResult where
  outcome : LoopOutcome
  calls : Nat
  budgets : List ℤ
  sleeps : Nat
deriving DecidableEq, Repr

/-- The `while True` loop of `status`, starting at iteration `i`, with an
explicit iteration bound (`fuel`). -/
def pollLoopGo (env : PollEnv) (poll_interval max_wait : ℤ) (i : Nat) :
    Nat → PollResult
  | 0 => ⟨.outOfFuel, 0, [], 0⟩
  | fuel + 1 =>
    let step := pollStep poll_interval max_wait (env.clock 0)
      (env.clock (2 * i + 1)) (env.clock (2 * i + 2)) (env.responses i)
    match step.1 with
    | .done t => ⟨.ok t, 1, [step.2], 0⟩
    | .timeout m => ⟨.timeout m, 1, [step.2], 0⟩
    | .invalid m => ⟨.invalid m, 1, [step.2], 0⟩
    | .again =>
      let rest := pollLoopGo env poll_interval max_wait (i + 1) fuel
      ⟨rest.outcome, 1 + rest.calls, step.2 :: rest.budgets, 1 + rest.sleeps⟩

/-- `ResearchResource.status` as a trace, from iteration 0. -/
def research_status (env : PollEnv) (poll_interval max_wait : ℤ)
    (fuel : Nat) : PollResult :=
  pollLoopGo env poll_interval max_wait 0 fuel

/-- Poll environment for the two-poll scenario: the first response is
non-terminal, the second is terminal with a report, the clock advances one
second per reading. -/
def pollScenarioEnv : PollEnv where
  responses n := if n = 0 then [("status", "running")] else [("status", "completed"), ("report", "R")]
  clock k := k

/-- Poll environment all of whose responses are non-terminal, clock
advancing one second per reading (used with `poll_interval = 0`). -/
def zeroIntervalEnv : PollEnv where
  responses _ := [("status", "running")]
  clock k := k

/-! ## `MCPClientManager` session lifecycle
(`_mcp_client.py`, lines 57–108), as a state machine over the manager's
four session-related attributes, with a spawn counter and an event log of
context closes standing in for the side effects. -/

/-- The manager's state: the stored session handle and the two manually
entered contexts (`None` = not present), plus a counter of subprocess
spawns. Handles are numbered by spawn. -/
structure MCPClientManager where
  profile : Option String := none
  session : Option Nat := none
  session_context : Option Nat := none
  stdio_context : Option Nat := none
  spawns : Nat := 0
deriving DecidableEq, Repr

/-- `connect()`: return the stored session if present; otherwise spawn the
subprocess (stdio context), enter the session context, initialize, and
store the handle. Returns the new state and the returned session handle. -/
def MCPClientManager.connect (s : MCPClientManager) : MCPClientManager × Nat :=
  match s.session with
  | some h => (s, h)
  | none =>
    let h := s.spawns
    ({ s with
        session := some h
        session_context := some h
        stdio_context := some h
        spawns := s.spawns + 1 }, h)

/-- Resource-release events of `disconnect()`. -/
inductive CloseEv
  | closeSession
  | closeTransport
deriving DecidableEq, Repr

/-- `disconnect()`: exit the session context (if present) and clear it and
the session, then exit the stdio context (if present) and clear it.
Returns the new state and the close events in order. -/
def MCPClientManager.disconnect (s : MCPClientManager) :
    MCPClientManager × List CloseEv :=
  let p1 :=
    match s.session_context with
    | some _ =>
      ({ s with session_context := none, session := none }, [CloseEv.closeSession])
    | none => (s, ([] : List CloseEv))
  let p2 :=
    match p1.1.stdio_context with
    | some _ => ({ p1.1 with stdio_context := none }, [CloseEv.closeTransport])
    | none => (p1.1, ([] : List CloseEv))
  (p2.1, p1.2 ++ p2.2)

/-- The keyword parameters `MCPClientManager.__init__` accepts
(`_mcp_client.py` line 57: `def __init__(self, profile: str | None = None)`). -/
def mcpInitKeywordParams : List String := ["profile"]

/-- The keyword arguments `AsyncNotebookLMClient.__init__` passes to
`MCPClientManager` (`async_client.py` line 50:
`MCPClientManager(profile=profile, config_dir=config_dir)`). -/
def asyncClientMcpCallKeywords : List String := ["profile", "config_dir"]

/-- The environment override `connect()` builds for the subprocess spawn
(`_mcp_client.py` lines 79–81): the profile variable when a profile is set,
otherwise no override. No home-directory entry is ever produced. -/
def connectSpawnEnv (profile : Option String) :
    Option (List (String × String)) :=
  match profile with
  | some p => if p = "" then none else some [("NOTEBOOKLM_MCP_PROFILE", p)]
  | none => none

/-! ## Helper lemmas -/

theorem listIsInfixOf_iff (pat l : List Char) :
    listIsInfixOf pat l = true ↔ pat <:+: l := by
  induction l with
  | nil => simp [listIsInfixOf, List.isEmpty_iff, List.infix_nil]
  | cons c rest ih =>
    simp [listIsInfixOf, List.infix_cons_iff, List.isPrefixOf_iff_prefix, ih]

theorem strContains_iff (s pat : String) :
    strContains s pat = true ↔ pat.data <:+: s.data := by
  simp [strContains, listIsInfixOf_iff]

theorem strContains_parts (s pre pat post : String)
    (h : s.data = pre.data ++ pat.data ++ post.data) :
    strContains s pat = true := by
  rw [strContains_iff, h]
  exact List.infix_append _ _ _

theorem researchTimeoutMessage_parts (mw : ℤ) (st : String) (e : ℚ) :
    strContains (researchTimeoutMessage mw st e) (toString mw) = true ∧
    strContains (researchTimeoutMessage mw st e) st = true ∧
    strContains (researchTimeoutMessage mw st e) (fmt0f e) = true := by
  refine ⟨?_, ?_, ?_⟩
  · refine strContains_parts _ "Research did not complete within " (toString mw)
      ("s (status=" ++ pyRepr st ++ ", elapsed=" ++ fmt0f e ++ "s)") ?_
    simp [researchTimeoutMessage, String.data_append, List.append_assoc]
  · refine strContains_parts _
      ("Research did not complete within " ++ toString mw ++ "s (status=" ++ "\x27") st
      ("\x27" ++ ", elapsed=" ++ fmt0f e ++ "s)") ?_
    simp [researchTimeoutMessage, pyRepr, String.data_append, List.append_assoc]
  · refine strContains_parts _
      ("Research did not complete within " ++ toString mw ++ "s (status=" ++
        pyRepr st ++ ", elapsed=") (fmt0f e) "s)" ?_
    simp [researchTimeoutMessage, String.data_append, List.append_assoc]

/-! ## Claim theorems -/

/-- C1: for every error message, `_map_error` produces exactly one error
kind, equal to the spec's first-match lookup in the fixed ordered
case-insensitive keyword table, and the six-entry classification table
holds: "Please login first" is Authentication, "Notebook not found" is
NotFound, "Rate limit exceeded" is RateLimit, "Invalid input" is
Validation, "Artifact generation failed" is Generation, and the empty
message is Generic. -/
theorem C1_error_classification :
    (∀ message : String, map_error_kind message = classify_spec message)
    ∧ map_error_kind "Please login first" = .Authentication
    ∧ map_error_kind "Notebook not found" = .NotFound
    ∧ map_error_kind "Rate limit exceeded" = .RateLimit
    ∧ map_error_kind "Invalid input" = .Validation
    ∧ map_error_kind "Artifact generation failed" = .Generation
    ∧ map_error_kind "" = .Generic := by
  refine ⟨fun message => ?_, by decide, by decide, by decide, by decide,
    by decide, by decide⟩
  unfold map_error_kind classify_spec
  generalize pyLower message = m
  simp only [keywordTable, List.find?, List.any_cons, List.any_nil,
    Bool.or_false, Bool.or_assoc]
  cases h1 : (strContains m "auth" || (strContains m "login" || strContains m "credential")) <;>
    cases h2 : (strContains m "not found" || strContains m "404") <;>
      cases h3 : (strContains m "rate limit" || strContains m "429") <;>
        cases h4 : (strContains m "invalid" || strContains m "validation") <;>
          cases h5 : (strContains m "generat" || strContains m "artifact") <;>
            simp [h1, h2, h3, h4, h5]

/-- C2 counterexample: the Timeout error raised by the research poll loop
(with `max_wait = 60`, last status `"pending"`, elapsed 60 s) does not
contain the bracketed tool name `"[research_status]"` — indeed no `"["` at
all — refuting the claim that every raised error carries it. -/
theorem C2_timeout_lacks_tool_name :
    strContains (researchTimeoutMessage 60 "pending" 60) "[research_status]" = false
    ∧ strContains (researchTimeoutMessage 60 "pending" 60) "[" = false := by
  constructor <;>
  · norm_num [researchTimeoutMessage, fmt0f, roundHalfEvenQ, ratFloorZ]
    decide

/-- C2 (amended): every error raised through `_map_error` — the errors of
the invocation layer — has a message containing the literal substring
`"[<tool_name>]"`, and an empty remote message yields the text
`"Unknown error"` after the bracketed tool name; the research poll loop's
Timeout error and the façades' pre-flight Validation errors are built
without this prefix. -/
theorem C2_tool_name_prefix :
    (∀ message tool_name : String,
      strContains (map_error_message message tool_name)
        ("[" ++ tool_name ++ "]") = true)
    ∧ (∀ tool_name : String,
      map_error_message "" tool_name = "[" ++ tool_name ++ "]" ++ " Unknown error") := by
  constructor
  · intro message tool_name
    by_cases hm : message = ""
    · subst hm
      refine strContains_parts _ "" ("[" ++ tool_name ++ "]") " Unknown error" ?_
      simp [map_error_message, String.data_append, List.append_assoc]
    · refine strContains_parts _ "" ("[" ++ tool_name ++ "]") (" " ++ message) ?_
      simp [map_error_message, hm, String.data_append, List.append_assoc]
  · intro tool_name
    simp [map_error_message]

theorem startGo_calls_le (outcomes : Nat → Outcome) (remaining : Nat) :
    ∀ (attempt : Nat) (delay : ℚ),
      (startGo outcomes attempt delay remaining).calls ≤ 1 + remaining := by
  induction remaining with
  | zero =>
    intro attempt delay
    cases h : outcomes attempt <;> simp [startGo, h]
  | succ r ih =>
    intro attempt delay
    cases h : outcomes attempt
    · simp [startGo, h]
    · simp only [startGo, h]
      split_ifs
      · have := ih (attempt + 1) (2 * delay)
        simp only []
        omega
      · simp

theorem startGo_all_transient (outcomes : Nat → Outcome) (m : String)
    (hall : ∀ n, outcomes n = .err m)
    (ht : strContains (pyLower m) "no confirmation from api" = true)
    (remaining : Nat) :
    ∀ (attempt : Nat) (delay : ℚ),
      (startGo outcomes attempt delay remaining).result = .raised m ∧
      (startGo outcomes attempt delay remaining).calls = 1 + remaining := by
  induction remaining with
  | zero => intro attempt delay; simp [startGo, hall attempt, ht]
  | succ r ih =>
    intro attempt delay
    have h2 := ih (attempt + 1) (2 * delay)
    simp only [startGo, hall attempt, ht, if_pos]
    exact ⟨h2.1, by omega⟩

/-- C3: the retry loop of `ResearchResource.start` makes at most
`1 + retries` calls; an attempt failing with a non-transient error (message
not containing "no confirmation from api" case-insensitively) re-raises at
once with no further call and no sleep; when every attempt fails with a
transient error the last one is re-raised after exactly `1 + retries`
calls; and with `retries = 3`, two transient failures followed by a success
return the success task after exactly 3 calls and exactly 2 sleeps, of the
initial delay and its double. -/
theorem C3_start_retry :
    (∀ (outcomes : Nat → Outcome) (retries : Nat) (delay : ℚ),
      (research_start outcomes retries delay).calls ≤ 1 + retries)
    ∧ (∀ (outcomes : Nat → Outcome) (attempt remaining : Nat) (delay : ℚ) (m : String),
      outcomes attempt = .err m →
      strContains (pyLower m) "no confirmation from api" = false →
      startGo outcomes attempt delay remaining = ⟨.raised m, 1, []⟩)
    ∧ (∀ (outcomes : Nat → Outcome) (retries : Nat) (delay : ℚ) (m : String),
      (∀ n, outcomes n = .err m) →
      strContains (pyLower m) "no confirmation from api" = true →
      (research_start outcomes retries delay).result = .raised m ∧
      (research_start outcomes retries delay).calls = 1 + retries)
    ∧ (∀ (outcomes : Nat → Outcome) (delay : ℚ) (m : String) (t : ResearchTask),
      outcomes 0 = .err m → outcomes 1 = .err m → outcomes 2 = .ok t →
      strContains (pyLower m) "no confirmation from api" = true →
      research_start outcomes 3 delay = ⟨.ok t, 3, [delay, 2 * delay]⟩) := by
  refine ⟨?_, ?_, ?_, ?_⟩
  · intro outcomes retries delay
    exact startGo_calls_le outcomes retries 0 delay
  · intro outcomes attempt remaining delay m h ht
    cases remaining <;> simp [startGo, h, ht]
  · intro outcomes retries delay m hall ht
    exact startGo_all_transient outcomes m hall ht retries 0 delay
  · intro outcomes delay m t h0 h1 h2 ht
    simp [research_start, startGo, h0, h1, h2, ht]

/-- C3 witness: the retry theorem applied to concrete outcome sequences
with `retries = 3`, `delay = 10`. -/
theorem C3_start_retry_witness :
    (research_start
        (fun n => if n < 2 then .err "No confirmation from API"
                  else .ok ⟨"completed", none⟩) 3 10).calls ≤ 1 + 3
    ∧ startGo (fun _ => .err "boom") 0 10 5 = ⟨.raised "boom", 1, []⟩
    ∧ ((research_start (fun _ => .err "no confirmation from API") 2 10).result =
          .raised "no confirmation from API"
        ∧ (research_start (fun _ => .err "no confirmation from API") 2 10).calls = 1 + 2)
    ∧ research_start
        (fun n => if n < 2 then .err "No confirmation from API"
                  else .ok ⟨"completed", none⟩) 3 10 =
        ⟨.ok ⟨"completed", none⟩, 3, [10, 2 * 10]⟩ :=
  ⟨C3_start_retry.1 _ 3 10,
   C3_start_retry.2.1 _ 0 5 10 "boom" rfl (by decide),
   C3_start_retry.2.2.1 _ 2 10 "no confirmation from API" (fun n => rfl) (by decide),
   C3_start_retry.2.2.2 _ 10 "No confirmation from API" ⟨"completed", none⟩
     rfl rfl rfl (by decide)⟩

/-- C4: in the poll loop of `ResearchResource.status`, when a poll decodes
to a non-terminal status and the elapsed time at the post-poll check is at
least `max_wait`, the iteration fails with Timeout whose message contains
the printed `max_wait`, the last observed status, and the elapsed seconds;
when the elapsed time is still below `max_wait`, the iteration raises
nothing and the loop adds one `asyncio.sleep(poll_interval)` suspension and
continues with the next poll. -/
theorem C4_poll_deadline :
    (∀ (pi mw : ℤ) (t0 preT postT : ℚ) (resp : List (String × String))
        (task : ResearchTask),
      ResearchTask.model_validate resp = .ok task →
      task.status ∉ _TERMINAL_STATUSES →
      (((mw : ℚ) ≤ postT - t0 →
          (pollStep pi mw t0 preT postT resp).1 =
            .timeout (researchTimeoutMessage mw task.status (postT - t0)) ∧
          strContains (researchTimeoutMessage mw task.status (postT - t0))
            (toString mw) = true ∧
          strContains (researchTimeoutMessage mw task.status (postT - t0))
            task.status = true ∧
          strContains (researchTimeoutMessage mw task.status (postT - t0))
            (fmt0f (postT - t0)) = true)
        ∧ (postT - t0 < (mw : ℚ) →
          (pollStep pi mw t0 preT postT resp).1 = .again)))
    ∧ (∀ (env : PollEnv) (pi mw : ℤ) (i fuel : Nat),
      (pollStep pi mw (env.clock 0) (env.clock (2 * i + 1))
          (env.clock (2 * i + 2)) (env.responses i)).1 = .again →
      (pollLoopGo env pi mw i (fuel + 1)).sleeps =
          1 + (pollLoopGo env pi mw (i + 1) fuel).sleeps ∧
      (pollLoopGo env pi mw i (fuel + 1)).outcome =
          (pollLoopGo env pi mw (i + 1) fuel).outcome) := by
  constructor
  · intro pi mw t0 preT postT resp task hv hterm
    constructor
    · intro hdl
      refine ⟨?_, researchTimeoutMessage_parts mw task.status (postT - t0)⟩
      simp [pollStep, hv, hterm, hdl]
    · intro hlt
      simp [pollStep, hv, hterm, not_le.mpr hlt]
  · intro env pi mw i fuel hstep
    simp [pollLoopGo, hstep]

/-- C4 witness: the deadline theorem at `poll_interval = 30`,
`max_wait = 60`, status `"running"`, elapsed 60 (timeout) and elapsed 30
(no exception), and one loop suspension in the two-poll scenario. -/
theorem C4_poll_deadline_witness :
    (pollStep 30 60 0 1 60 [("status", "running")]).1 =
        .timeout (researchTimeoutMessage 60 "running" (60 - 0))
    ∧ strContains (researchTimeoutMessage 60 "running" (60 - 0))
        (toString (60 : ℤ)) = true
    ∧ (pollStep 30 60 0 1 30 [("status", "running")]).1 = .again
    ∧ (pollLoopGo pollScenarioEnv 30 300 0 2).sleeps =
        1 + (pollLoopGo pollScenarioEnv 30 300 1 1).sleeps :=
  ⟨((C4_poll_deadline.1 30 60 0 1 60 [("status", "running")] ⟨"running", none⟩ rfl (by decide)).1
      (by norm_num)).1,
   ((C4_poll_deadline.1 30 60 0 1 60 [("status", "running")] ⟨"running", none⟩ rfl (by decide)).1
      (by norm_num)).2.1,
   (C4_poll_deadline.1 30 60 0 1 30 [("status", "running")] ⟨"running", none⟩ rfl (by decide)).2
      (by norm_num),
   (C4_poll_deadline.2 pollScenarioEnv 30 300 0 1 (by
      norm_num [pollStep, pollBudget, truncQ, ratFloorZ, pollScenarioEnv,
        ResearchTask.model_validate, allowedStatuses, _TERMINAL_STATUSES]
      decide)).1⟩

/-- C5: a poll iteration whose decoded task has a terminal status
(`completed`, `success`, `failed` or `no_research`) returns that task at
once — for every post-poll clock value, so also past the deadline — the
loop then makes no further calls and no further sleeps, and the two-poll
scenario (non-terminal then terminal with a report) returns the terminal
task after exactly two remote calls and one suspension without raising. -/
theorem C5_terminal_returns :
    (∀ (pi mw : ℤ) (t0 preT postT : ℚ) (resp : List (String × String))
        (task : ResearchTask),
      ResearchTask.model_validate resp = .ok task →
      task.status ∈ _TERMINAL_STATUSES →
      (pollStep pi mw t0 preT postT resp).1 = .done task)
    ∧ (∀ (env : PollEnv) (pi mw : ℤ) (i fuel : Nat) (task : ResearchTask),
      ResearchTask.model_validate (env.responses i) = .ok task →
      task.status ∈ _TERMINAL_STATUSES →
      pollLoopGo env pi mw i (fuel + 1) =
        ⟨.ok task, 1, [pollBudget pi mw (env.clock 0) (env.clock (2 * i + 1))], 0⟩)
    ∧ research_status pollScenarioEnv 30 300 5 =
        ⟨.ok ⟨"completed", some "R"⟩, 2, [30, 30], 1⟩ := by
  refine ⟨?_, ?_, ?_⟩
  · intro pi mw t0 preT postT resp task hv hterm
    simp [pollStep, hv, hterm]
  · intro env pi mw i fuel task hv hterm
    have hstep : (pollStep pi mw (env.clock 0) (env.clock (2 * i + 1))
        (env.clock (2 * i + 2)) (env.responses i)) =
        (.done task, pollBudget pi mw (env.clock 0) (env.clock (2 * i + 1))) := by
      simp [pollStep, hv, hterm]
    simp only [pollLoopGo, hstep]
  · norm_num [research_status, pollLoopGo, pollStep, pollBudget, truncQ,
      ratFloorZ, pollScenarioEnv, ResearchTask.model_validate,
      allowedStatuses, _TERMINAL_STATUSES]
    decide

/-- C5 witness: the terminal-return theorem at a poll whose post-poll clock
(1000) is far past the deadline, and at iteration 1 of the two-poll
scenario environment. -/
theorem C5_terminal_returns_witness :
    (pollStep 30 300 0 1 1000 [("status", "completed")]).1 =
        .done ⟨"completed", none⟩
    ∧ pollLoopGo pollScenarioEnv 30 300 1 3 =
        ⟨.ok ⟨"completed", some "R"⟩, 1,
          [pollBudget 30 300 (pollScenarioEnv.clock 0)
            (pollScenarioEnv.clock (2 * 1 + 1))], 0⟩ :=
  ⟨C5_terminal_returns.1 30 300 0 1 1000 [("status", "completed")] ⟨"completed", none⟩ rfl (by decide),
   C5_terminal_returns.2.1 pollScenarioEnv 30 300 1 2 ⟨"completed", some "R"⟩
     rfl (by decide)⟩

theorem pollStep_snd (pi mw : ℤ) (t0 preT postT : ℚ)
    (resp : List (String × String)) :
    (pollStep pi mw t0 preT postT resp).2 = pollBudget pi mw t0 preT := by
  cases h : ResearchTask.model_validate resp
  · simp [pollStep, h]
  · simp only [pollStep, h]
    split_ifs <;> rfl

/-- C6 counterexample: with `poll_interval = 0` (`max_wait = 1`, all polls
non-terminal) the single remote call of the run is issued with wait budget
0, which is below 1 second — refuting the claim that the budget never
falls below 1 second. -/
theorem C6_budget_zero_interval :
    (research_status zeroIntervalEnv 0 1 2).budgets = [0]
    ∧ ¬ (1 ≤ (0 : ℤ)) := by
  constructor
  · norm_num [research_status, pollLoopGo, pollStep, pollBudget, truncQ,
      ratFloorZ, zeroIntervalEnv, ResearchTask.model_validate,
      allowedStatuses, _TERMINAL_STATUSES]
    decide
  · decide

/-- C6 (amended): every remote status call is issued with a wait budget
equal to `min(poll_interval, max(1, int(max_wait - elapsed_since_start)))`
computed from the pre-call clock reading of its iteration; hence no single
remote wait ever exceeds `poll_interval`, and the budget never falls below
1 second whenever `poll_interval` is at least 1 (with `poll_interval ≤ 0`
the budget equals `poll_interval`-capped 0 or less). -/
theorem C6_wait_budget :
    (∀ (pi mw : ℤ) (t0 preT postT : ℚ) (resp : List (String × String)),
      (pollStep pi mw t0 preT postT resp).2 = pollBudget pi mw t0 preT)
    ∧ (∀ (pi mw : ℤ) (t0 preT : ℚ), pollBudget pi mw t0 preT ≤ pi)
    ∧ (∀ (pi mw : ℤ) (t0 preT : ℚ), 1 ≤ pi → 1 ≤ pollBudget pi mw t0 preT)
    ∧ (∀ (env : PollEnv) (pi mw : ℤ) (i fuel : Nat),
      ∀ b ∈ (pollLoopGo env pi mw i fuel).budgets,
        ∃ j, b = pollBudget pi mw (env.clock 0) (env.clock (2 * j + 1))) := by
  refine ⟨pollStep_snd, ?_, ?_, ?_⟩
  · intro pi mw t0 preT
    exact min_le_left _ _
  · intro pi mw t0 preT hpi
    exact le_min hpi (le_max_left _ _)
  · intro env pi mw i fuel
    induction fuel generalizing i with
    | zero => intro b hb; simp [pollLoopGo] at hb
    | succ f ih =>
      intro b hb
      simp only [pollLoopGo] at hb
      rcases hstep : (pollStep pi mw (env.clock 0) (env.clock (2 * i + 1))
          (env.clock (2 * i + 2)) (env.responses i)).1 with t | m | m | _ <;>
        rw [hstep] at hb <;>
        simp only [List.mem_singleton, List.mem_cons, List.not_mem_nil,
          or_false] at hb
      · exact ⟨i, hb ▸ pollStep_snd pi mw _ _ _ _⟩
      · exact ⟨i, hb ▸ pollStep_snd pi mw _ _ _ _⟩
      · exact ⟨i, hb ▸ pollStep_snd pi mw _ _ _ _⟩
      · rcases hb with hb | hb
        · exact ⟨i, hb ▸ pollStep_snd pi mw _ _ _ _⟩
        · exact ih (i + 1) b hb

/-- C6 witness: the budget theorem at `poll_interval = 30`,
`max_wait = 300`, first-iteration clock readings 0 and 1, and a budget
drawn from a three-iteration run. -/
theorem C6_wait_budget_witness :
    (pollStep 30 300 0 1 2 [("status", "running")]).2 = pollBudget 30 300 0 1
    ∧ pollBudget 30 300 0 1 ≤ 30
    ∧ 1 ≤ pollBudget 30 300 0 1
    ∧ ∃ j, (30 : ℤ) =
        pollBudget 30 300 (zeroIntervalEnv.clock 0) (zeroIntervalEnv.clock (2 * j + 1)) :=
  ⟨C6_wait_budget.1 30 300 0 1 2 [("status", "running")],
   C6_wait_budget.2.1 30 300 0 1,
   C6_wait_budget.2.2.1 30 300 0 1 (by decide),
   C6_wait_budget.2.2.2 zeroIntervalEnv 30 300 0 3 30 (by
     norm_num [pollLoopGo, pollStep, pollBudget, truncQ, ratFloorZ,
       zeroIntervalEnv, ResearchTask.model_validate, allowedStatuses,
       _TERMINAL_STATUSES]
     decide)⟩

/-- C10 counterexample: the mapping `{"sources": "oops"}` lacks a
`"status"` key, yet it does not validate to a pending task — the `sources`
field is typed `list[dict]` and a string input fails pydantic validation —
so the poll iteration raises the validation failure immediately instead of
continuing to poll, refuting the claim's universal "does not raise
immediately but keeps polling". -/
theorem C10_illtyped_sources_raises :
    ([("sources", "oops")] : List (String × String)).lookup "status" = none
    ∧ ResearchTask.model_validate [("sources", "oops")] =
        .error "validation error: sources"
    ∧ (pollStep 30 300 0 1 2 [("sources", "oops")]).1 =
        .invalid "validation error: sources" :=
  ⟨rfl, rfl, rfl⟩

/-- C10 (amended): a decoded `research_status` mapping without a
`"status"` key whose present fields pass the model's type checks (no
`sources` entry, any `sources_found` entry integer-shaped) — including the
empty mapping `_parse_tool_result` produces when the response has neither
structured content nor a non-empty text block — validates to a task whose
status defaults to `"pending"`, which is not terminal, so the poll
iteration neither returns the task nor raises while the deadline has not
passed (it suspends and keeps polling) and fails with Timeout once elapsed
reaches `max_wait`; a status-less mapping with an ill-typed field instead
fails validation at the decode step. -/
theorem C10_missing_status_pending :
    (∀ (jsonParse : String → Option (List (String × String)))
        (content : List ContentBlock),
      (∀ s, ContentBlock.text s ∈ content → s = "") →
      _parse_tool_result jsonParse content none = [])
    ∧ (∀ m : List (String × String), m.lookup "status" = none →
      m.lookup "sources" = none → sourcesFoundOk m = true →
      ResearchTask.model_validate m = .ok ⟨"pending", m.lookup "report"⟩)
    ∧ ResearchTask.model_validate [] = .ok ⟨"pending", none⟩
    ∧ "pending" ∉ _TERMINAL_STATUSES
    ∧ (∀ (pi mw : ℤ) (t0 preT postT : ℚ),
      (postT - t0 < (mw : ℚ) → (pollStep pi mw t0 preT postT []).1 = .again)
      ∧ ((mw : ℚ) ≤ postT - t0 →
        (pollStep pi mw t0 preT postT []).1 =
          .timeout (researchTimeoutMessage mw "pending" (postT - t0)))) := by
  refine ⟨?_, ?_, rfl, by decide, ?_⟩
  · intro jsonParse content hempty
    induction content with
    | nil => simp [_parse_tool_result, _parse_tool_result_go]
    | cons b rest ih =>
      cases b with
      | text s =>
        have hs : s = "" := hempty s (List.mem_cons_self _ _)
        subst hs
        simpa [_parse_tool_result, _parse_tool_result_go] using
          ih (fun s hsmem => hempty s (List.mem_cons_of_mem _ hsmem))
      | nonText =>
        simpa [_parse_tool_result, _parse_tool_result_go] using
          ih (fun s hsmem => hempty s (List.mem_cons_of_mem _ hsmem))
  · intro m hm hsrc hsf
    simp [ResearchTask.model_validate, hm, hsrc, hsf, allowedStatuses]
  · intro pi mw t0 preT postT
    constructor
    · intro hlt
      simp [pollStep, ResearchTask.model_validate, sourcesFoundOk,
        allowedStatuses, _TERMINAL_STATUSES, not_le.mpr hlt]
    · intro hdl
      simp [pollStep, ResearchTask.model_validate, sourcesFoundOk,
        allowedStatuses, _TERMINAL_STATUSES, hdl]

/-- C10 witness: the default-status theorem at a content list with no
non-empty text block, a well-typed mapping with only a report key, and the
empty response below and at the deadline. -/
theorem C10_missing_status_pending_witness :
    _parse_tool_result (fun _ => none)
        [ContentBlock.nonText, ContentBlock.text ""] none = []
    ∧ ResearchTask.model_validate [("report", "R")] = .ok ⟨"pending", some "R"⟩
    ∧ (pollStep 30 300 0 1 2 []).1 = .again
    ∧ (pollStep 30 300 0 1 300 []).1 =
        .timeout (researchTimeoutMessage 300 "pending" (300 - 0)) :=
  ⟨C10_missing_status_pending.1 (fun _ => none)
      [ContentBlock.nonText, ContentBlock.text ""]
      (by intro s hs; simp at hs; exact hs),
   C10_missing_status_pending.2.1 [("report", "R")] rfl rfl rfl,
   (C10_missing_status_pending.2.2.2.2 30 300 0 1 2).1 (by norm_num),
   (C10_missing_status_pending.2.2.2.2 30 300 0 1 300).2 (by norm_num)⟩

/-- C7 (the signature mismatch): `AsyncNotebookLMClient.__init__` passes
the keyword argument `config_dir` to `MCPClientManager`, whose `__init__`
accepts only `profile` — so constructing the client raises `TypeError` —
and the environment `connect()` builds contains the profile variable at
most: no home-directory entry is ever substituted, with no override at all
when no profile is set. -/
theorem C7_config_dir_not_accepted :
    "config_dir" ∈ asyncClientMcpCallKeywords
    ∧ "config_dir" ∉ mcpInitKeywordParams
    ∧ connectSpawnEnv none = none
    ∧ connectSpawnEnv (some "u1") = some [("NOTEBOOKLM_MCP_PROFILE", "u1")]
    ∧ (∀ (p : Option String) (env : List (String × String)),
        connectSpawnEnv p = some env → env.lookup "HOME" = none) := by
  refine ⟨by decide, by decide, rfl, rfl, ?_⟩
  intro p env hp
  cases p with
  | none => simp [connectSpawnEnv] at hp
  | some q =>
    by_cases hq : q = "" <;> simp [connectSpawnEnv, hq] at hp
    simp [← hp, List.lookup]

/-- C7 witness: the spawn-environment theorem applied to the concrete
profile `"u1"`. -/
theorem C7_config_dir_not_accepted_witness :
    ([("NOTEBOOKLM_MCP_PROFILE", "u1")] : List (String × String)).lookup "HOME"
      = none :=
  C7_config_dir_not_accepted.2.2.2.2 (some "u1")
    [("NOTEBOOKLM_MCP_PROFILE", "u1")] rfl

theorem keys_nodup_value_eq {α β : Type} {l : List (α × β)}
    (h : (l.map Prod.fst).Nodup) {a : α} {b₁ b₂ : β}
    (h₁ : (a, b₁) ∈ l) (h₂ : (a, b₂) ∈ l) : b₁ = b₂ := by
  induction l with
  | nil => cases h₁
  | cons hd tl ih =>
    rw [List.map_cons, List.nodup_cons] at h
    rcases List.mem_cons.mp h₁ with e₁ | m₁ <;>
      rcases List.mem_cons.mp h₂ with e₂ | m₂
    · rw [← e₂] at e₁
      exact congrArg Prod.snd e₁
    · exfalso
      apply h.1
      rw [show hd.1 = a from congrArg Prod.fst e₁.symm]
      exact List.mem_map_of_mem Prod.fst m₂
    · exfalso
      apply h.1
      rw [show hd.1 = a from congrArg Prod.fst e₂.symm]
      exact List.mem_map_of_mem Prod.fst m₁
    · exact ih h.2 m₁ m₂

/-- C8: the argument filtering of `call_tool` transmits a key/value pair
exactly when the key was present with that non-`None` value, and — keys of
a mapping being unique — a key whose value is `None` is never transmitted
with any value. -/
theorem C8_filtered_args_correct :
    ∀ {V : Type} (arguments : List (String × Option V)) (k : String) (v : V),
      ((k, v) ∈ filtered_args arguments ↔ (k, some v) ∈ arguments)
      ∧ ((k, none) ∈ arguments → (arguments.map Prod.fst).Nodup →
          (k, v) ∉ filtered_args arguments) := by
  intro V arguments k v
  have hiff : (k, v) ∈ filtered_args arguments ↔ (k, some v) ∈ arguments := by
    constructor
    · intro hmem
      rcases List.mem_filterMap.mp hmem with ⟨⟨a, ob⟩, hab, hf⟩
      cases ob with
      | none => simp at hf
      | some w =>
        simp only [Option.map_some', Option.some.injEq, Prod.mk.injEq] at hf
        rw [← hf.1, ← hf.2]
        exact hab
    · intro hmem
      exact List.mem_filterMap.mpr ⟨(k, some v), hmem, rfl⟩
  refine ⟨hiff, ?_⟩
  intro hnone hnodup hmem
  have : (none : Option V) = some v :=
    keys_nodup_value_eq hnodup hnone (hiff.mp hmem)
  simp at this

/-- C8 witness: the filtering theorem at a two-entry mapping with one
`None` value. -/
theorem C8_filtered_args_correct_witness :
    (("k", "v") ∈ filtered_args [("k", some "v"), ("j", (none : Option String))]
      ↔ ("k", some "v") ∈ [("k", some "v"), ("j", (none : Option String))])
    ∧ ("j", "w") ∉ filtered_args [("k", some "v"), ("j", (none : Option String))] :=
  ⟨(C8_filtered_args_correct [("k", some "v"), ("j", none)] "k" "v").1,
   (C8_filtered_args_correct [("k", some "v"), ("j", none)] "j" "w").2
     (by decide) (by decide)⟩

/-- C9: `connect()` returns the stored handle unchanged when a session
exists; from a disconnected state two consecutive `connect()` calls
perform exactly one spawn and the second returns the handle the first
stored; `disconnect()` on a never-connected state is a no-op that emits no
close events; when both contexts exist it closes the session before the
transport; and a second `disconnect()` emits no close events. -/
theorem C9_lifecycle :
    (∀ (s : MCPClientManager) (h : Nat), s.session = some h →
      MCPClientManager.connect s = (s, h))
    ∧ (∀ s : MCPClientManager, s.session = none →
      ((MCPClientManager.connect s).1.spawns = s.spawns + 1
        ∧ MCPClientManager.connect (MCPClientManager.connect s).1 =
            ((MCPClientManager.connect s).1, (MCPClientManager.connect s).2)))
    ∧ (∀ s : MCPClientManager, s.session_context = none → s.stdio_context = none →
      MCPClientManager.disconnect s = (s, []))
    ∧ (∀ s : MCPClientManager, s.session_context.isSome → s.stdio_context.isSome →
      (MCPClientManager.disconnect s).2 =
        [CloseEv.closeSession, CloseEv.closeTransport])
    ∧ (∀ s : MCPClientManager,
      (MCPClientManager.disconnect (MCPClientManager.disconnect s).1).2 = []) := by
  refine ⟨?_, ?_, ?_, ?_, ?_⟩
  · intro s h hs
    simp [MCPClientManager.connect, hs]
  · intro s hs
    constructor
    · simp [MCPClientManager.connect, hs]
    · simp [MCPClientManager.connect, hs]
  · intro s h1 h2
    simp [MCPClientManager.disconnect, h1, h2]
  · intro s h1 h2
    rcases hs1 : s.session_context with _ | c1
    · rw [hs1] at h1; cases h1
    rcases hs2 : s.stdio_context with _ | c2
    · rw [hs2] at h2; cases h2
    simp [MCPClientManager.disconnect, hs1, hs2]
  · intro s
    rcases hs1 : s.session_context with _ | c1 <;>
      rcases hs2 : s.stdio_context with _ | c2 <;>
        simp [MCPClientManager.disconnect, hs1, hs2]

/-- C9 witness: the lifecycle theorem at a connected state (stored handle
7), the fresh default state, and a once-connected state. -/
theorem C9_lifecycle_witness :
    MCPClientManager.connect ⟨none, some 7, some 0, some 0, 1⟩ =
        (⟨none, some 7, some 0, some 0, 1⟩, 7)
    ∧ ((MCPClientManager.connect {}).1.spawns = ({} : MCPClientManager).spawns + 1
        ∧ MCPClientManager.connect (MCPClientManager.connect {}).1 =
            ((MCPClientManager.connect {}).1, (MCPClientManager.connect {}).2))
    ∧ MCPClientManager.disconnect {} = ({}, [])
    ∧ (MCPClientManager.disconnect ⟨none, some 0, some 0, some 0, 1⟩).2 =
        [CloseEv.closeSession, CloseEv.closeTransport] :=
  ⟨C9_lifecycle.1 ⟨none, some 7, some 0, some 0, 1⟩ 7 rfl,
   C9_lifecycle.2.1 {} rfl,
   C9_lifecycle.2.2.1 {} rfl rfl,
   C9_lifecycle.2.2.2.1 ⟨none, some 0, some 0, some 0, 1⟩ (by decide) (by decide)⟩

end NotebookLM
